import Mathlib

/-!
Shallow embedding of the video-storage microservice
(src/video-storage/src/index.js): environment-driven configuration
resolution, port defaulting, the three HTTP routes (readiness, video
download, video upload), the 404 fallback middleware, and the
readiness-flag lifecycle.  Environment variables and HTTP headers are
`Option String` (none models an undefined JS value); JS truthiness of
such values is made explicit.
-/

namespace VideoStorage

/-- The environment variables the program reads (process.env lookups).
`none` models an unset variable. -/
structure Env where
  BUCKET_NAME : Option String
  ENDPOINT : Option String
  AUTHENTICATION_TYPE : Option String
  API_KEY : Option String
  ACCESS_KEY_ID : Option String
  SECRET_ACCESS_KEY : Option String
  SERVICE_INSTANCE_ID : Option String
  REGION : Option String
  PORT : Option String
deriving DecidableEq, Repr

/-- JS truthiness of a string-or-undefined value: undefined and the
empty string are falsy, every other string is truthy. -/
def strTruthy : Option String → Bool
  | none => false
  | some s => s ≠ ""

/-- How startup can fail before the server begins listening. -/
inductive StartupError where
  /-- A TypeError from dereferencing an undefined value
  (`AUTHENTICATION_TYPE.toLowerCase()` at module scope, index.js:32). -/
  | typeError
  /-- One of the `throw new Error(...)` statements in `main` that names a
  missing required environment variable (index.js:116-135). -/
  | missingConfiguration (field : String)
  /-- The final `else` branch of `main`: `Unknown authentication type`
  (index.js:137). -/
  | unknownAuthenticationMode (value : String)
deriving DecidableEq, Repr

/-- The shape of the CONFIG object handed to the storage client
(index.js:32-48); unset fields are `none`. -/
structure CosConfig where
  accessKeyId : Option String := none
  secretAccessKey : Option String := none
  region : Option String := none
  apiKeyId : Option String := none
  serviceInstanceId : Option String := none
  endpoint : Option String := none
deriving DecidableEq, Repr

/-- Module-scope evaluation of CONFIG (index.js:32-48).  It runs before
`main`; when AUTHENTICATION_TYPE is undefined the call
`AUTHENTICATION_TYPE.toLowerCase()` raises a TypeError. -/
def moduleInit (e : Env) : Except StartupError CosConfig :=
  match e.AUTHENTICATION_TYPE with
  | none => .error .typeError
  | some auth =>
    if auth.toLower = "hmac" then
      .ok { accessKeyId := e.ACCESS_KEY_ID, secretAccessKey := e.SECRET_ACCESS_KEY,
            region := e.REGION, endpoint := e.ENDPOINT }
    else
      .ok { apiKeyId := e.API_KEY, serviceInstanceId := e.SERVICE_INSTANCE_ID,
            endpoint := e.ENDPOINT }

/-- The required-variable checks at the top of `main` (index.js:116-138).
`!process.env.X` is true for an unset or empty variable. -/
def mainChecks (e : Env) : Except StartupError Unit :=
  if !strTruthy e.BUCKET_NAME then .error (.missingConfiguration "BUCKET_NAME")
  else if !strTruthy e.ENDPOINT then .error (.missingConfiguration "ENDPOINT")
  else if !strTruthy e.AUTHENTICATION_TYPE then .error (.missingConfiguration "AUTHENTICATION_TYPE")
  else if (e.AUTHENTICATION_TYPE.getD "").toLower = "hmac" then
    if !strTruthy e.REGION then .error (.missingConfiguration "REGION")
    else if !strTruthy e.SECRET_ACCESS_KEY then .error (.missingConfiguration "SECRET_ACCESS_KEY")
    else if !strTruthy e.ACCESS_KEY_ID then .error (.missingConfiguration "ACCESS_KEY_ID")
    else .ok ()
  else if (e.AUTHENTICATION_TYPE.getD "").toLower = "iam" then
    if !strTruthy e.API_KEY then .error (.missingConfiguration "API_KEY")
    else if !strTruthy e.SERVICE_INSTANCE_ID then .error (.missingConfiguration "SERVICE_INSTANCE_ID")
    else .ok ()
  else .error (.unknownAuthenticationMode (e.AUTHENTICATION_TYPE.getD ""))

/-- Full startup sequence: module-scope initialization (which computes
CONFIG) first, then the checks in `main`.  On success the process
proceeds to bind the listener with this CONFIG. -/
def startup (e : Env) : Except StartupError CosConfig := do
  let cfg ← moduleInit e
  mainChecks e
  pure cfg

/-- JS parseInt digit test for a given base (10 or 16 here). -/
def isDigitIn (base : Nat) (c : Char) : Bool :=
  if base = 16 then
    c.isDigit ∨ (("abcdefABCDEF").toList.contains c)
  else
    c.isDigit

/-- Numeric value of one parseInt digit. -/
def digitVal (c : Char) : Nat :=
  if c.isDigit then c.toNat - 48
  else if c.toNat ≥ 97 then c.toNat - 87
  else c.toNat - 55

/-- Value of the longest digit prefix; `none` when there is no leading
digit (parseInt returns NaN). -/
def parseDigits (base : Nat) : List Char → Option Nat
  | [] => none
  | c :: cs =>
    if isDigitIn base c then
      some ((c :: cs).takeWhile (isDigitIn base) |>.foldl (fun acc d => acc * base + digitVal d) 0)
    else none

/-- JS parseInt with no radix argument: skip leading whitespace, read an
optional sign, honor a 0x/0X hex prefix, then take the longest digit
prefix; NaN (`none`) when no digit follows. -/
def jsParseInt (s : String) : Option Int :=
  let cs := s.toList.dropWhile (fun c => c = ' ' ∨ c = '\t' ∨ c = '\n' ∨ c = '\r')
  let (neg, cs) : Bool × List Char :=
    match cs with
    | '-' :: rest => (true, rest)
    | '+' :: rest => (false, rest)
    | _ => (false, cs)
  let mag : Option Nat :=
    match cs with
    | '0' :: 'x' :: rest => parseDigits 16 rest
    | '0' :: 'X' :: rest => parseDigits 16 rest
    | _ => parseDigits 10 cs
  mag.map (fun n => if neg then -(n : Int) else (n : Int))

/-- The listen port: `process.env.PORT && parseInt(process.env.PORT) || 3000`
(index.js:30).  A falsy PORT (unset, empty) short-circuits to 3000; a
truthy PORT whose parseInt result is falsy (NaN or 0) also falls back
to 3000. -/
def resolvePort (port : Option String) : Int :=
  if !strTruthy port then 3000
  else
    match jsParseInt (port.getD "") with
    | none => 3000
    | some n => if n = 0 then 3000 else n

/-- Whether the missing-PORT notice is logged (index.js:140-142): only
when `process.env.PORT === undefined`, i.e. strictly unset. -/
def portNoticeLogged (port : Option String) : Bool :=
  port.isNone

/-- Winston log levels used by the program. -/
inductive LogLevel where
  | info
  | error
deriving DecidableEq, Repr

/-- One structured log record: level, message, and the requestId field
from the metadata object (undefined when the inbound header is absent). -/
structure LogLine where
  level : LogLevel
  message : String
  requestId : Option String
deriving DecidableEq, Repr

/-- A single quote character, used inside the missing-id error text. -/
def sq : String := String.singleton (Char.ofNat 39)

/-- The body of the response to `GET /video` without an id parameter:
`{ error: "An 'id' term must be provided." }` (index.js:202). -/
def idErrorMessage : String := "An " ++ sq ++ "id" ++ sq ++ " term must be provided."

/-- An HTTP response body as the handlers produce it. -/
inductive Body where
  /-- `res.send(data.Body)`: the raw object bytes. -/
  | bytes (b : List Nat)
  /-- `res.send({ error: msg })`: a JSON error object. -/
  | jsonError (msg : String)
  /-- `res.sendStatus(n)`: body is the standard status text. -/
  | statusText
  /-- `res.status(404).send(html)`: an HTML fragment. -/
  | html (s : String)
deriving DecidableEq, Repr

/-- An outbound HTTP response: status, explicitly set headers, body. -/
structure HttpResponse where
  status : Nat
  headers : List (String × String)
  body : Body
deriving DecidableEq, Repr

/-- `res.sendStatus(n)`. -/
def sendStatus (n : Nat) : HttpResponse :=
  { status := n, headers := [], body := .statusText }

/-- An error thrown by the storage client: `code` discriminates
not-found (`NoSuchKey`) from other failures; `message` and `stack` are
what `logger.error(err)` and `logger.error(err.stack)` record. -/
structure StorageErr where
  code : String
  message : String
  stack : String
deriving DecidableEq, Repr

/-- Successful `getObject` result: metadata plus the body bytes. -/
structure FetchData where
  contentType : String
  contentLength : Nat
  body : List Nat
deriving DecidableEq, Repr

/-- Parameters of one `client.getObject` call (index.js:176-179). -/
structure FetchCall where
  bucket : String
  key : String
deriving DecidableEq, Repr

/-- Outcome of a `getObject().promise()`: resolved data or rejection. -/
inductive FetchOutcome where
  | success (d : FetchData)
  | failure (e : StorageErr)
deriving DecidableEq, Repr

/-- Inbound `GET /video` request: the id query parameter and the
x-correlation-id header, both possibly absent. -/
structure VideoRequest where
  queryId : Option String
  xCorrelationId : Option String
deriving DecidableEq, Repr

/-- Result of running a route handler: the response written, the
storage calls issued, and the log lines emitted, in order. -/
structure VideoResult where
  response : HttpResponse
  calls : List FetchCall
  logs : List LogLine
deriving DecidableEq, Repr

/-- The `GET /video` handler (index.js:165-204).  `backend` is the
storage client: the outcome of `getObject` on given parameters. -/
def videoHandler (bucket : String) (backend : FetchCall → FetchOutcome)
    (req : VideoRequest) : VideoResult :=
  let cid := req.xCorrelationId
  match req.queryId with
  | some videoId =>
    let params : FetchCall := { bucket := bucket, key := videoId }
    let log1 : LogLine :=
      { level := .info,
        message := "Retrieving video from bucket: " ++ bucket ++ ", key: " ++ videoId ++ ".",
        requestId := cid }
    match backend params with
    | .success data =>
      { response :=
          { status := 200,
            headers := [("Content-Length", toString data.contentLength),
                        ("Content-Type", data.contentType)],
            body := .bytes data.body },
        calls := [params],
        logs := [log1,
                 { level := .info,
                   message := "Retrieved " ++ bucket ++ "/" ++ videoId ++ " with size "
                              ++ toString data.contentLength ++ ".",
                   requestId := cid }] }
    | .failure err =>
      if err.code = "NoSuchKey" then
        { response := sendStatus 500,
          calls := [params],
          logs := [log1,
                   { level := .info,
                     message := bucket ++ "/" ++ videoId ++ " not found.",
                     requestId := cid }] }
      else
        { response := sendStatus 500,
          calls := [params],
          logs := [log1,
                   { level := .error,
                     message := "Error while retrieving video " ++ bucket ++ "/" ++ videoId
                                ++ " to stream.",
                     requestId := cid },
                   { level := .error, message := err.message, requestId := cid },
                   { level := .error, message := err.stack, requestId := cid }] }
  | none =>
    { response := { status := 200, headers := [], body := .jsonError idErrorMessage },
      calls := [],
      logs := [{ level := .info, message := "An id term must be provided.", requestId := cid }] }

/-- Inbound `POST /upload` request: the three metadata headers and the
correlation header (any may be absent), plus the request body bytes. -/
structure UploadRequest where
  id : Option String
  contentType : Option String
  contentLength : Option String
  xCorrelationId : Option String
  body : List Nat
deriving DecidableEq, Repr

/-- Parameters of one `client.putObject` call (index.js:214-220); key,
content type and length are passed through unchecked, undefined and
all. -/
structure StoreCall where
  bucket : String
  key : Option String
  contentType : Option String
  contentLength : Option String
  body : List Nat
deriving DecidableEq, Repr

/-- Outcome of a `putObject().promise()`. -/
inductive StoreOutcome where
  | success
  | failure (e : StorageErr)
deriving DecidableEq, Repr

/-- Result of running the upload handler. -/
structure UploadResult where
  response : HttpResponse
  calls : List StoreCall
  logs : List LogLine
deriving DecidableEq, Repr

/-- Rendering of a possibly-undefined header value inside a template
literal: JS prints `undefined` for the undefined value. -/
def showOpt : Option String → String
  | none => "undefined"
  | some s => s

/-- The `POST /upload` handler (index.js:207-233).  No validation: the
headers are read and passed straight into one `putObject` call; the
response status is 200 or 500 by the call outcome alone. -/
def uploadHandler (bucket : String) (backend : StoreCall → StoreOutcome)
    (req : UploadRequest) : UploadResult :=
  let cid := req.xCorrelationId
  let params : StoreCall :=
    { bucket := bucket, key := req.id, contentType := req.contentType,
      contentLength := req.contentLength, body := req.body }
  let log1 : LogLine :=
    { level := .info,
      message := "Uploading video to bucket: " ++ bucket ++ ", key: " ++ showOpt req.id
                 ++ ", Content-Type: " ++ showOpt req.contentType
                 ++ ", Content-Length: " ++ showOpt req.contentLength ++ ".",
      requestId := cid }
  match backend params with
  | .success =>
    { response := sendStatus 200,
      calls := [params],
      logs := [log1,
               { level := .info, message := "Uploaded the video " ++ showOpt req.id ++ ".",
                 requestId := cid }] }
  | .failure err =>
    { response := sendStatus 500,
      calls := [params],
      logs := [log1,
               { level := .error,
                 message := "Upload to COS failed for video " ++ showOpt req.id ++ ".",
                 requestId := cid },
               { level := .error, message := err.message, requestId := cid }] }

/-- Inbound request reaching the 404 fallback middleware. -/
structure FallbackRequest where
  url : String
  xCorrelationId : Option String
deriving DecidableEq, Repr

/-- The catch-all middleware (index.js:244-247): logs at error level
with the fixed requestId "-1" (the correlation header is never read)
and responds 404 with an HTML fragment naming the URL. -/
def fallbackHandler (req : FallbackRequest) : HttpResponse × List LogLine :=
  ({ status := 404, headers := [],
     body := .html ("<h1>Unable to find the requested resource (" ++ req.url ++ ")!</h1>") },
   [{ level := .error,
      message := "Unable to find the requested resource (" ++ req.url ++ ")!",
      requestId := some "-1" }])

/-- Process-lifetime events that touch the readiness flag: the listener
binding (the `main().then` continuation sets READINESS_PROBE = true,
index.js:104) and a `GET /readiness` request. -/
inductive Event where
  | bind
  | readinessReq
deriving DecidableEq, Repr

/-- The only write to READINESS_PROBE: `bind` sets it to true; serving
a readiness request leaves it unchanged. -/
def stepReady (ready : Bool) (e : Event) : Bool :=
  match e with
  | .bind => true
  | .readinessReq => ready

/-- The readiness flag after a trace of events, starting from the
initial value `false` (index.js:31). -/
def readyAfter (tr : List Event) : Bool :=
  tr.foldl stepReady false

/-- The `GET /readiness` handler (index.js:159-162):
`res.sendStatus(READINESS_PROBE === true ? 200 : 500)`. -/
def readinessStatus (ready : Bool) : Nat :=
  if ready then 200 else 500

/-- Statuses returned to the readiness requests of a trace, in order,
threading the flag from the given starting value. -/
def runTrace : List Event → Bool → List Nat
  | [], _ => []
  | .bind :: es, _ => runTrace es true
  | .readinessReq :: es, r => readinessStatus r :: runTrace es r

/-- An environment with every required variable set except
AUTHENTICATION_TYPE, which is entirely unset. -/
def envMissingAuthType : Env :=
  { BUCKET_NAME := some "videos", ENDPOINT := some "s3.example.com",
    AUTHENTICATION_TYPE := none, API_KEY := some "k", ACCESS_KEY_ID := some "a",
    SECRET_ACCESS_KEY := some "s", SERVICE_INSTANCE_ID := some "i",
    REGION := some "us", PORT := some "3000" }

/-- C1: for an environment whose authentication-mode selector is unset,
startup does fail before serving, but with a TypeError raised by the
module-scope CONFIG initializer, never with the MissingConfiguration
error naming the field; the dedicated check inside `main` would produce
that named error but is unreachable because CONFIG is evaluated first. -/
theorem C1_missing_mode_selector_dies_with_typeError :
    startup envMissingAuthType = Except.error StartupError.typeError ∧
    (∀ f : String,
      startup envMissingAuthType ≠ Except.error (StartupError.missingConfiguration f)) ∧
    mainChecks envMissingAuthType =
      Except.error (StartupError.missingConfiguration "AUTHENTICATION_TYPE") := by
  refine ⟨rfl, ?_, rfl⟩
  intro f h
  rw [show startup envMissingAuthType = Except.error StartupError.typeError from rfl] at h
  exact StartupError.noConfusion (Except.error.inj h)

/-- C2: when the id query parameter is present and the backend fetch for
(bucket, id) succeeds with data d, the response is status 200 with the
Content-Length and Content-Type headers taken from d and the body
exactly the fetched bytes. -/
theorem C2_fetch_success_streams_data (bucket key : String)
    (backend : FetchCall → FetchOutcome) (req : VideoRequest) (d : FetchData)
    (hid : req.queryId = some key)
    (hb : backend { bucket := bucket, key := key } = .success d) :
    (videoHandler bucket backend req).response =
      { status := 200,
        headers := [("Content-Length", toString d.contentLength),
                    ("Content-Type", d.contentType)],
        body := .bytes d.body } := by
  simp [videoHandler, hid, hb]

/-- Fixed fetch data used to instantiate theorems at a concrete input. -/
def demoData : FetchData :=
  { contentType := "video/mp4", contentLength := 3, body := [10, 20, 30] }

/-- Backend double whose every fetch succeeds with `demoData`. -/
def demoBackendOk : FetchCall → FetchOutcome := fun _ => .success demoData

/-- Concrete instantiation of the C2 theorem. -/
theorem C2_fetch_success_streams_data_witness :
    ({ queryId := some "vid-1", xCorrelationId := some "c7" } : VideoRequest).queryId
        = some "vid-1" ∧
    demoBackendOk { bucket := "videos", key := "vid-1" } = .success demoData ∧
    (videoHandler "videos" demoBackendOk
        { queryId := some "vid-1", xCorrelationId := some "c7" }).response =
      { status := 200,
        headers := [("Content-Length", toString demoData.contentLength),
                    ("Content-Type", demoData.contentType)],
        body := .bytes demoData.body } :=
  ⟨rfl, rfl,
   C2_fetch_success_streams_data "videos" "vid-1" demoBackendOk
     { queryId := some "vid-1", xCorrelationId := some "c7" } demoData rfl rfl⟩

/-- C4: a `GET /video` request without an id parameter gets status 200
with the JSON error body, and no backend fetch call is issued. -/
theorem C4_missing_id_yields_200_and_no_fetch (bucket : String)
    (backend : FetchCall → FetchOutcome) (cid : Option String) :
    (videoHandler bucket backend { queryId := none, xCorrelationId := cid }).response.status
        = 200 ∧
    (videoHandler bucket backend { queryId := none, xCorrelationId := cid }).response.body
        = .jsonError idErrorMessage ∧
    (videoHandler bucket backend { queryId := none, xCorrelationId := cid }).calls = [] := by
  refine ⟨rfl, rfl, rfl⟩

/-- C5: when the backend fetch fails, the response status is 500 in
every case; a NoSuchKey failure is logged only at info level, while any
other failure puts the error message and the stack into error-level
log lines. -/
theorem C5_fetch_failure_logs_and_500 (bucket key : String)
    (backend : FetchCall → FetchOutcome) (req : VideoRequest) (err : StorageErr)
    (hid : req.queryId = some key)
    (hb : backend { bucket := bucket, key := key } = .failure err) :
    (videoHandler bucket backend req).response.status = 500 ∧
    (err.code = "NoSuchKey" →
      ∀ l ∈ (videoHandler bucket backend req).logs, l.level = .info) ∧
    (err.code ≠ "NoSuchKey" →
      { level := LogLevel.error, message := err.message,
        requestId := req.xCorrelationId } ∈ (videoHandler bucket backend req).logs ∧
      { level := LogLevel.error, message := err.stack,
        requestId := req.xCorrelationId } ∈ (videoHandler bucket backend req).logs) := by
  by_cases hc : err.code = "NoSuchKey" <;>
    simp_all [videoHandler, hid, hb, sendStatus]

/-- Backend double whose every fetch is rejected with a NoSuchKey
error. -/
def demoBackendNotFound : FetchCall → FetchOutcome :=
  fun _ => .failure { code := "NoSuchKey", message := "no such key", stack := "trace" }

/-- Concrete instantiation of the C5 theorem at a NoSuchKey failure. -/
theorem C5_fetch_failure_logs_and_500_witness :
    ({ queryId := some "gone", xCorrelationId := none } : VideoRequest).queryId = some "gone" ∧
    demoBackendNotFound { bucket := "videos", key := "gone" }
        = .failure { code := "NoSuchKey", message := "no such key", stack := "trace" } ∧
    ((videoHandler "videos" demoBackendNotFound
        { queryId := some "gone", xCorrelationId := none }).response.status = 500 ∧
     (({ code := "NoSuchKey", message := "no such key", stack := "trace" } : StorageErr).code
          = "NoSuchKey" →
       ∀ l ∈ (videoHandler "videos" demoBackendNotFound
          { queryId := some "gone", xCorrelationId := none }).logs, l.level = .info) ∧
     (({ code := "NoSuchKey", message := "no such key", stack := "trace" } : StorageErr).code
          ≠ "NoSuchKey" →
       { level := LogLevel.error, message := "no such key",
         requestId := none } ∈ (videoHandler "videos" demoBackendNotFound
          { queryId := some "gone", xCorrelationId := none }).logs ∧
       { level := LogLevel.error, message := "trace",
         requestId := none } ∈ (videoHandler "videos" demoBackendNotFound
          { queryId := some "gone", xCorrelationId := none }).logs)) :=
  ⟨rfl, rfl,
   C5_fetch_failure_logs_and_500 "videos" "gone" demoBackendNotFound
     { queryId := some "gone", xCorrelationId := none }
     { code := "NoSuchKey", message := "no such key", stack := "trace" } rfl rfl⟩

/-- C3: with the id, content-type and content-length headers present,
the upload handler issues exactly one store call carrying the
configured bucket, the header values and the body bytes; success maps
to status 200, and a failure is logged at error level and maps to
status 500. -/
theorem C3_upload_single_store_call (bucket i t l : String)
    (backend : StoreCall → StoreOutcome) (req : UploadRequest)
    (hi : req.id = some i) (ht : req.contentType = some t)
    (hl : req.contentLength = some l) :
    (uploadHandler bucket backend req).calls =
      [{ bucket := bucket, key := some i, contentType := some t,
         contentLength := some l, body := req.body }] ∧
    (backend { bucket := bucket, key := some i, contentType := some t,
               contentLength := some l, body := req.body } = .success →
      (uploadHandler bucket backend req).response.status = 200) ∧
    (∀ err, backend { bucket := bucket, key := some i, contentType := some t,
                      contentLength := some l, body := req.body } = .failure err →
      (uploadHandler bucket backend req).response.status = 500 ∧
      { level := LogLevel.error,
        message := "Upload to COS failed for video " ++ i ++ ".",
        requestId := req.xCorrelationId } ∈ (uploadHandler bucket backend req).logs) := by
  cases hb : backend { bucket := bucket, key := some i, contentType := some t,
                       contentLength := some l, body := req.body } <;>
    simp_all [uploadHandler, showOpt, sendStatus]

/-- Fixed upload request used to instantiate theorems. -/
def demoUploadReq : UploadRequest :=
  { id := some "foo", contentType := some "video/mp4", contentLength := some "4",
    xCorrelationId := some "c9", body := [1, 2, 3, 4] }

/-- Backend double whose every store is rejected. -/
def demoStoreFail : StoreCall → StoreOutcome :=
  fun _ => .failure { code := "AccessDenied", message := "denied", stack := "st" }

/-- Concrete instantiation of the C3 theorem. -/
theorem C3_upload_single_store_call_witness :
    demoUploadReq.id = some "foo" ∧
    demoUploadReq.contentType = some "video/mp4" ∧
    demoUploadReq.contentLength = some "4" ∧
    (uploadHandler "videos" demoStoreFail demoUploadReq).calls =
      [{ bucket := "videos", key := some "foo", contentType := some "video/mp4",
         contentLength := some "4", body := [1, 2, 3, 4] }] ∧
    (uploadHandler "videos" demoStoreFail demoUploadReq).response.status = 500 :=
  ⟨rfl, rfl, rfl,
   (C3_upload_single_store_call "videos" "foo" "video/mp4" "4" demoStoreFail
      demoUploadReq rfl rfl rfl).1,
   ((C3_upload_single_store_call "videos" "foo" "video/mp4" "4" demoStoreFail
      demoUploadReq rfl rfl rfl).2.2
      { code := "AccessDenied", message := "denied", stack := "st" } rfl).1⟩

theorem foldl_stepReady_eq (tr : List Event) :
    ∀ r : Bool, tr.foldl stepReady r = (r || decide (Event.bind ∈ tr)) := by
  induction tr with
  | nil => simp
  | cons e es ih => cases e <;> simp [stepReady, ih, List.mem_cons]

theorem runTrace_append (xs ys : List Event) :
    ∀ r : Bool, runTrace (xs ++ ys) r = runTrace xs r ++ runTrace ys (xs.foldl stepReady r) := by
  induction xs with
  | nil => simp [runTrace]
  | cons e es ih => cases e <;> simp [runTrace, stepReady, ih]

theorem runTrace_true_all_200 (xs : List Event) : ∀ s ∈ runTrace xs true, s = 200 := by
  induction xs with
  | nil => simp [runTrace]
  | cons e es ih => cases e <;> simpa [runTrace, readinessStatus] using ih

theorem runTrace_nobind_all_500 (xs : List Event) (h : Event.bind ∉ xs) :
    ∀ s ∈ runTrace xs false, s = 500 := by
  induction xs with
  | nil => simp [runTrace]
  | cons e es ih =>
    cases e with
    | bind => exact absurd (List.mem_cons_self _ _) h
    | readinessReq =>
      have h2 : Event.bind ∉ es := fun hm => h (List.mem_cons_of_mem _ hm)
      simpa [runTrace, readinessStatus] using ih h2

/-- C6: along any trace whose prefix contains no listener binding, the
readiness flag stays false and every readiness request answers 500;
binding flips the flag to true, where it stays for every continuation,
and from then on every readiness request answers 200. -/
theorem C6_readiness_lifecycle (pre post : List Event) (h : Event.bind ∉ pre) :
    readyAfter pre = false ∧
    readyAfter (pre ++ Event.bind :: post) = true ∧
    runTrace (pre ++ Event.bind :: post) false =
      runTrace pre false ++ runTrace post true ∧
    (∀ s ∈ runTrace pre false, s = 500) ∧
    (∀ s ∈ runTrace post true, s = 200) := by
  refine ⟨?_, ?_, ?_, runTrace_nobind_all_500 pre h, runTrace_true_all_200 post⟩
  · simp [readyAfter, foldl_stepReady_eq, h]
  · have hm : Event.bind ∈ pre ++ Event.bind :: post :=
      List.mem_append_right _ (List.mem_cons_self _ _)
    show (pre ++ Event.bind :: post).foldl stepReady false = true
    rw [foldl_stepReady_eq]
    simp [hm]
  · rw [runTrace_append pre (Event.bind :: post) false]
    rfl

/-- Concrete instantiation of the C6 theorem: one readiness request
before binding answers 500, two afterwards both answer 200. -/
theorem C6_readiness_lifecycle_witness :
    Event.bind ∉ [Event.readinessReq] ∧
    (readyAfter [Event.readinessReq] = false ∧
     readyAfter ([Event.readinessReq] ++ Event.bind ::
        [Event.readinessReq, Event.readinessReq]) = true ∧
     runTrace ([Event.readinessReq] ++ Event.bind ::
        [Event.readinessReq, Event.readinessReq]) false =
       runTrace [Event.readinessReq] false ++
       runTrace [Event.readinessReq, Event.readinessReq] true ∧
     (∀ s ∈ runTrace [Event.readinessReq] false, s = 500) ∧
     (∀ s ∈ runTrace [Event.readinessReq, Event.readinessReq] true, s = 200)) :=
  ⟨by decide,
   C6_readiness_lifecycle [Event.readinessReq]
     [Event.readinessReq, Event.readinessReq] (by decide)⟩

/-- C8 counterexample: PORT set to a non-numeric string falls back to
port 3000 with no informational notice, and PORT set to the parseable
integer string 0 is ignored in favor of 3000; both contradict the
claim that every defaulted environment logs a notice and every
parseable PORT is used as given. -/
theorem C8_silent_default_counterexample :
    (jsParseInt "abc" = none ∧ resolvePort (some "abc") = 3000 ∧
     portNoticeLogged (some "abc") = false) ∧
    (jsParseInt "0" = some 0 ∧ resolvePort (some "0") = 3000) := by
  refine ⟨⟨by decide, by decide, rfl⟩, by decide, by decide⟩

/-- C8 amended: an absent PORT yields 3000 with the informational
notice; a present PORT never logs the notice, and yields the parseInt
value when that value is a nonzero integer, falling back silently to
3000 when the string is empty, unparseable, or parses to 0. -/
theorem C8_port_resolution (port : Option String) :
    (port = none → resolvePort port = 3000 ∧ portNoticeLogged port = true) ∧
    (∀ s, port = some s → portNoticeLogged port = false ∧
      (s = "" → resolvePort port = 3000) ∧
      (jsParseInt s = none → resolvePort port = 3000) ∧
      (jsParseInt s = some 0 → resolvePort port = 3000) ∧
      (∀ n : Int, jsParseInt s = some n → n ≠ 0 → resolvePort port = n)) := by
  rcases port with _ | s0
  · exact ⟨fun _ => ⟨rfl, rfl⟩, fun s h => Option.noConfusion h⟩
  · refine ⟨fun h => Option.noConfusion h, ?_⟩
    intro s h
    cases Option.some.inj h
    refine ⟨rfl, ?_, ?_, ?_, ?_⟩
    · intro he
      simp [resolvePort, strTruthy, he]
    · intro hp
      by_cases he : s0 = ""
      · simp [resolvePort, strTruthy, he]
      · simp [resolvePort, strTruthy, he, hp]
    · intro hp
      by_cases he : s0 = ""
      · simp [resolvePort, strTruthy, he]
      · simp [resolvePort, strTruthy, he, hp]
    · intro n hp hn
      by_cases he : s0 = ""
      · rw [he] at hp
        exact Option.noConfusion (show (none : Option Int) = some n from hp)
      · simp [resolvePort, strTruthy, he, hp, hn]

/-- Concrete instantiation of the C8 theorem at PORT = 8080. -/
theorem C8_port_resolution_witness :
    (some "8080" : Option String) = some "8080" ∧
    jsParseInt "8080" = some 8080 ∧
    portNoticeLogged (some "8080") = false ∧
    resolvePort (some "8080") = 8080 :=
  ⟨rfl, by decide,
   ((C8_port_resolution (some "8080")).2 "8080" rfl).1,
   ((C8_port_resolution (some "8080")).2 "8080" rfl).2.2.2.2 8080 (by decide) (by decide)⟩

/-- C9 counterexample: a request reaching the 404 fallback with an
x-correlation-id header is logged with the fixed requestId -1, not with
the correlation identifier the claim requires. -/
theorem C9_fallback_drops_correlation_id :
    ((fallbackHandler { url := "/nope", xCorrelationId := some "cid-123" }).2.map
        LogLine.requestId) = [some "-1"] ∧
    (some "-1" : Option String) ≠ some "cid-123" :=
  ⟨rfl, by decide⟩

/-- C9 amended: on the /video and /upload routes every log line carries
the request correlation header value (undefined when the header is
absent), while the 404 fallback always logs with the fixed placeholder
requestId -1, ignoring the header. -/
theorem C9_correlation_id_in_logs (bucket : String) (fb : FetchCall → FetchOutcome)
    (sb : StoreCall → StoreOutcome) (vreq : VideoRequest) (ureq : UploadRequest)
    (freq : FallbackRequest) :
    (∀ l ∈ (videoHandler bucket fb vreq).logs, l.requestId = vreq.xCorrelationId) ∧
    (∀ l ∈ (uploadHandler bucket sb ureq).logs, l.requestId = ureq.xCorrelationId) ∧
    (∀ l ∈ (fallbackHandler freq).2, l.requestId = some "-1") := by
  refine ⟨?_, ?_, ?_⟩
  · rcases vreq with ⟨qid, cid⟩
    rcases qid with _ | key
    · simp [videoHandler]
    · rcases hb : fb { bucket := bucket, key := key } with d | err
      · simp [videoHandler, hb]
      · by_cases hc : err.code = "NoSuchKey" <;> simp [videoHandler, hb, hc]
  · rcases hb : sb { bucket := bucket, key := ureq.id, contentType := ureq.contentType,
                     contentLength := ureq.contentLength, body := ureq.body } with _ | err <;>
      simp [uploadHandler, hb]
  · simp [fallbackHandler]

/-- C10: the upload handler validates nothing: whatever subset of the
id, content-type and content-length headers is present, exactly one
store call is issued with the raw optional values and the body, and the
status is 200 precisely when that call succeeds and 500 precisely when
it does not. -/
theorem C10_upload_no_validation (bucket : String) (backend : StoreCall → StoreOutcome)
    (req : UploadRequest) :
    (uploadHandler bucket backend req).calls =
      [{ bucket := bucket, key := req.id, contentType := req.contentType,
         contentLength := req.contentLength, body := req.body }] ∧
    ((uploadHandler bucket backend req).response.status = 200 ↔
      backend { bucket := bucket, key := req.id, contentType := req.contentType,
                contentLength := req.contentLength, body := req.body } = .success) ∧
    ((uploadHandler bucket backend req).response.status = 500 ↔
      backend { bucket := bucket, key := req.id, contentType := req.contentType,
                contentLength := req.contentLength, body := req.body } ≠ .success) := by
  rcases hb : backend { bucket := bucket, key := req.id, contentType := req.contentType,
                        contentLength := req.contentLength, body := req.body } with _ | err <;>
    simp [uploadHandler, hb, sendStatus]

end VideoStorage
